import Mathlib

/-!
Shallow embedding of the `FloatingTerminalButton` React component
(src/unnamed/part_000, lines 11-141) and verification of the spec's claims
about it.

Modelling conventions:
* Pixel coordinates are `Int`; measured sizes (`offsetWidth`, `innerWidth`,
  ...) are `Nat` (the DOM reports non-negative sizes; `|| 0` makes a missing
  measurement 0).
* The localStorage slot is modelled at the level `JSON.parse` sees it: the
  stored string is either absent, a string on which `JSON.parse` throws
  (`malformed`), or a string that parses to a JSON value.  `JSON.stringify`
  of a finite numeric object round-trips through `JSON.parse`, so
  `save` stores the parsed form directly.
* React state semantics: state setters called in one event handler are
  flushed before the next browser event is dispatched, so handlers attached
  to the rendered element always read the latest state.  The `useEffect`
  with dependency list `[isDragging, initialPos]` (lines 93-103) re-runs
  exactly when one of its dependencies changes; the window listeners it
  registers are closures over the values of the render in which the effect
  ran.  We track the object identity of `initialPos` with a version counter
  and record the dependency values at the last effect run in `lastDeps`.
-/

namespace FloatingTerminal

/-- The position record `{x, y}` held in the `position` state (line 26). -/
structure Pos where
  x : Int
  y : Int
deriving DecidableEq, Repr

/-- JSON values, the possible results of `JSON.parse`. -/
inductive JVal where
  | jnull : JVal
  | jbool : Bool → JVal
  | jnum : Int → JVal
  | jstr : String → JVal
  | jarr : List JVal → JVal
  | jobj : List (String × JVal) → JVal

/-- Content of the `terminalButtonPosition` localStorage slot, at the level
`JSON.parse` sees it. -/
inductive StoredItem where
  | absent : StoredItem
  | malformed : StoredItem
  | value : JVal → StoredItem

/-- The result of `localStorage.getItem` plus `JSON.parse` (lines 32-35):
`none` when the key is absent, `some (.error ())` when `JSON.parse` throws,
`some (.ok v)` when it parses to `v`. -/
def parseStored : StoredItem → Option (Except Unit JVal)
  | .absent => none
  | .malformed => some (.error ())
  | .value v => some (.ok v)

/-- The value the load effect (lines 31-41) adopts, if any: an absent key is
skipped, a parse error is caught (and logged), and any successfully parsed
value is passed to `setPosition` unconditionally. -/
def load (item : StoredItem) : Option JVal :=
  match parseStored item with
  | none => none
  | some (.error _) => none
  | some (.ok v) => some v

/-- The load effect's action on the `position` state: adopt the parsed value
when there is one, otherwise leave the state unchanged.  The state is a raw
JSON value here because `setPosition(parsedPosition)` (line 36) stores
whatever `JSON.parse` produced. -/
def loadEffect (item : StoredItem) (position : JVal) : JVal :=
  (load item).getD position

/-- `JSON.stringify` applied to a position object `{x, y}` (line 89),
viewed through `JSON.parse`. -/
def posJson (p : Pos) : JVal :=
  .jobj [("x", .jnum p.x), ("y", .jnum p.y)]

/-- `localStorage.setItem('terminalButtonPosition', JSON.stringify(p))`
(line 89): replaces whatever the slot held. -/
def save (_item : StoredItem) (p : Pos) : StoredItem :=
  .value (posJson p)

/-- Interpretation of an adopted JSON value as a position: the `{x, y}`
object with numeric fields that `posJson` produces. -/
def decodePos : JVal → Option Pos
  | .jobj [(k1, .jnum a), (k2, .jnum b)] =>
      if k1 = "x" ∧ k2 = "y" then some ⟨a, b⟩ else none
  | _ => none

/-- Measured sizes read inside `handleMouseMove` (lines 74-78):
`buttonRef.current?.offsetWidth || 0`, `window.innerWidth`, etc. -/
structure MoveEnv where
  buttonW : Nat
  buttonH : Nat
  viewportW : Nat
  viewportH : Nat
deriving DecidableEq, Repr

/-- One axis of the clamp in `handleMouseMove` (lines 77-81):
`Math.max(0, Math.min(proposed, viewport - control))`. -/
def clampAxis (proposed : Int) (control viewport : Nat) : Int :=
  max 0 (min proposed ((viewport : Int) - (control : Int)))

/-- Both axes of the clamp (lines 77-83). -/
def clampPos (proposedX proposedY : Int) (env : MoveEnv) : Pos :=
  ⟨clampAxis proposedX env.buttonW env.viewportW,
   clampAxis proposedY env.buttonH env.viewportH⟩

/-- `handleMouseUp` (lines 86-91) with the `setItem` call made explicitly
fallible (e.g. storage quota exhaustion).  There is no try/catch around
`setItem`, so a storage failure escapes the handler; `setIsDragging(false)`
is called before `setItem`, so the drag still ends.  Result:
(isDragging afterwards, writes performed, exception escaped). -/
def handleMouseUpFallible (isDragging : Bool) (position : Pos)
    (storageOk : Bool) : Bool × List Pos × Bool :=
  if isDragging then
    if storageOk then (false, [position], false)
    else (false, [], true)
  else (isDragging, [], false)

/-- CSS values appearing in `buttonStyle` (lines 105-113): `'auto'`, the
literal `'1.5rem'` default-corner offset, or a pixel coordinate. -/
inductive CssVal where
  | auto : CssVal
  | rem15 : CssVal
  | px : Int → CssVal
deriving DecidableEq, Repr

/-- The placement-relevant fields of `buttonStyle` (lines 105-113). -/
structure BtnStyle where
  bottom : CssVal
  right : CssVal
  top : CssVal
  left : CssVal
  grabbing : Bool
deriving DecidableEq, Repr

/-- `buttonStyle` (lines 105-113): each axis independently falls back to the
default corner anchor exactly when its coordinate is 0. -/
def buttonStyle (position : Pos) (isDragging : Bool) : BtnStyle :=
  { bottom := if position.y = 0 then .rem15 else .auto
    right := if position.x = 0 then .rem15 else .auto
    top := if position.y ≠ 0 then .px position.y else .auto
    left := if position.x ≠ 0 then .px position.x else .auto
    grabbing := isDragging }

/-- Values captured by the window-listener closures registered by the effect
on lines 93-103.  `handleMouseMove` reads the `initialPos` of the render the
effect ran in; `handleMouseUp` reads that render's `position`.  Both read an
`isDragging` that is `true`, since the effect registers only when the
render's `isDragging` is `true`. -/
structure Caps where
  initialPosCap : Pos
  positionCap : Pos
deriving DecidableEq, Repr

/-- The component's state: the three `useState` values (lines 26-28), the
object identity of `initialPos` as a version counter, the currently
registered window listeners (with their captured values), and the effect's
dependency values `(isDragging, initialPos identity)` at its last run. -/
structure CState where
  position : Pos
  isDragging : Bool
  initialPos : Pos
  initialPosVer : Nat
  listeners : Option Caps
  lastDeps : Bool × Nat
deriving DecidableEq, Repr

/-- State after mount: `position` is the loaded position (or the sentinel
`(0,0)` when the store yielded nothing), not dragging, and the listener
effect has run once without registering anything. -/
def initState (p0 : Pos) : CState :=
  { position := p0
    isDragging := false
    initialPos := ⟨0, 0⟩
    initialPosVer := 0
    listeners := none
    lastDeps := (false, 0) }

/-- The listener-management effect (lines 93-103), run after a render: if
its dependencies `(isDragging, initialPos)` changed since its last run, the
cleanup removes the old listeners and the body registers fresh closures over
the current render's values exactly when `isDragging` holds. -/
def applyEffect (s : CState) : CState :=
  if (s.isDragging, s.initialPosVer) = s.lastDeps then s
  else
    { s with
      listeners :=
        if s.isDragging then some ⟨s.initialPos, s.position⟩ else none
      lastDeps := (s.isDragging, s.initialPosVer) }

/-- Effect cleanup on component teardown (lines 99-102): both window
listeners are removed unconditionally. -/
def unmount (s : CState) : CState :=
  { s with listeners := none }

/-- `handleMouseDown` (lines 56-66): a non-primary button is ignored;
otherwise start dragging and record the pointer's offset from the control
(`initialPos` gets a fresh object identity). -/
def handleMouseDown (button : Nat) (clientX clientY : Int) (s : CState) :
    CState :=
  if button ≠ 0 then s
  else
    { s with
      isDragging := true
      initialPos := ⟨clientX - s.position.x, clientY - s.position.y⟩
      initialPosVer := s.initialPosVer + 1 }

/-- `handleMouseMove` (lines 68-84) as the registered window closure: its
captured `isDragging` is `true`, so it computes the proposed position from
the captured `initialPos`, clamps it against the sizes measured now, and
stores it. -/
def handleMouseMove (c : Caps) (clientX clientY : Int) (env : MoveEnv)
    (s : CState) : CState :=
  { s with
    position :=
      clampPos (clientX - c.initialPosCap.x) (clientY - c.initialPosCap.y)
        env }

/-- `handleMouseUp` (lines 86-91) as the registered window closure, reading
its captured `isDragging` and captured `position` (storage assumed
writable): ends the drag and writes the captured position. -/
def handleMouseUp (capturedIsDragging : Bool) (capturedPosition : Pos)
    (s : CState) : CState × List Pos :=
  if capturedIsDragging then
    ({ s with isDragging := false }, [capturedPosition])
  else (s, [])

/-- `handleClick` (lines 43-47): number of navigation invocations, reading
the current `isDragging`. -/
def handleClick (s : CState) : Nat :=
  if s.isDragging then 0 else 1

/-- Browser events delivered to the component.  `mouseMove` carries the
sizes `handleMouseMove` reads at call time; `click` is the event the
browser synthesizes after a mouse-down/mouse-up pair on the control. -/
inductive Event where
  | mouseDown : Nat → Int → Int → Event
  | mouseMove : Int → Int → MoveEnv → Event
  | mouseUp : Event
  | click : Event
  | keyDown : String → Event

/-- Observable output of one event dispatch: localStorage writes, navigation
invocations, and whether the handler called `preventDefault`. -/
structure Out where
  saves : List Pos
  navs : Nat
  prevented : Bool
deriving DecidableEq, Repr

/-- Dispatch of one browser event: element handlers read the current state,
window events run the registered closures (if any), and afterwards React
re-renders and re-runs the effect when its dependencies changed. -/
def step (s : CState) (e : Event) : CState × Out :=
  match e with
  | .mouseDown b x y =>
      if b ≠ 0 then (applyEffect s, ⟨[], 0, false⟩)
      else (applyEffect (handleMouseDown b x y s), ⟨[], 0, true⟩)
  | .mouseMove x y env =>
      match s.listeners with
      | none => (applyEffect s, ⟨[], 0, false⟩)
      | some c => (applyEffect (handleMouseMove c x y env s), ⟨[], 0, false⟩)
  | .mouseUp =>
      match s.listeners with
      | none => (applyEffect s, ⟨[], 0, false⟩)
      | some c =>
          let r := handleMouseUp true c.positionCap s
          (applyEffect r.1, ⟨r.2, 0, false⟩)
  | .click => (applyEffect s, ⟨[], handleClick s, false⟩)
  | .keyDown k =>
      if k = "Enter" ∨ k = " " then (applyEffect s, ⟨[], handleClick s, true⟩)
      else (applyEffect s, ⟨[], 0, false⟩)

/-- Run a sequence of events: final state, all writes, total navigations. -/
def run (s : CState) : List Event → CState × List Pos × Nat
  | [] => (s, [], 0)
  | e :: es =>
      let p := step s e
      let r := run p.1 es
      (r.1, p.2.saves ++ r.2.1, p.2.navs + r.2.2)

/-- The events of an ordinary drag session: primary-button mouse-down at
`(x, y)`, the given pointer moves, mouse-up, and the click the browser
synthesizes afterwards — the control tracks the pointer during the drag, so
the release lands on it and the mouse-down/mouse-up pair is on the same
element. -/
def dragTrace (x y : Int) (moves : List (Int × Int × MoveEnv)) : List Event :=
  .mouseDown 0 x y ::
    (moves.map (fun m => Event.mouseMove m.1 m.2.1 m.2.2)
      ++ [Event.mouseUp, Event.click])

/-- The listener bookkeeping invariant: listeners are registered exactly
while `isDragging` holds, and the effect's recorded dependencies match the
current state. -/
def ListenerInv (s : CState) : Prop :=
  s.listeners.isSome = s.isDragging ∧
  s.lastDeps = (s.isDragging, s.initialPosVer)

instance (s : CState) : Decidable (ListenerInv s) := by
  unfold ListenerInv; infer_instance

/- Helper lemmas about the clamp, shared by several claims. -/

lemma clampAxis_nonneg (p : Int) (c v : Nat) : 0 ≤ clampAxis p c v :=
  le_max_left 0 _

lemma clampAxis_le (p : Int) (c v : Nat) :
    clampAxis p c v ≤ max 0 ((v : Int) - (c : Int)) :=
  max_le_max (le_refl 0) (min_le_right p _)

lemma clampAxis_of_small (p : Int) (c v : Nat) (h : v < c) :
    clampAxis p c v = 0 := by
  have hvc : (v : Int) - (c : Int) ≤ 0 := by
    have : (v : Int) < (c : Int) := by exact_mod_cast h
    omega
  have hle : min p ((v : Int) - (c : Int)) ≤ 0 :=
    le_trans (min_le_right p _) hvc
  exact max_eq_left hle

/-- C3: for every proposed position (any integers) and all non-negative
control and viewport sizes, the clamp in `handleMouseMove` returns a
position with `0 ≤ x ≤ max 0 (viewportW - controlW)` and
`0 ≤ y ≤ max 0 (viewportH - controlH)`; when a viewport dimension is
smaller than the control dimension, that axis is exactly 0. -/
theorem clamp_bounds (px py : Int) (env : MoveEnv) :
    (0 ≤ (clampPos px py env).x ∧
      (clampPos px py env).x ≤ max 0 ((env.viewportW : Int) - env.buttonW)) ∧
    (0 ≤ (clampPos px py env).y ∧
      (clampPos px py env).y ≤ max 0 ((env.viewportH : Int) - env.buttonH)) ∧
    (env.viewportW < env.buttonW → (clampPos px py env).x = 0) ∧
    (env.viewportH < env.buttonH → (clampPos px py env).y = 0) := by
  refine ⟨⟨clampAxis_nonneg _ _ _, clampAxis_le _ _ _⟩,
          ⟨clampAxis_nonneg _ _ _, clampAxis_le _ _ _⟩, ?_, ?_⟩
  · intro h; exact clampAxis_of_small _ _ _ h
  · intro h; exact clampAxis_of_small _ _ _ h

/-- Witness for `clamp_bounds` at a concrete input: a viewport (50 × 50)
smaller than the control (100 × 100). -/
theorem clamp_bounds_witness :
    (0 ≤ (clampPos 3 3 ⟨100, 100, 50, 50⟩).x ∧
      (clampPos 3 3 ⟨100, 100, 50, 50⟩).x ≤ max 0 ((50 : Int) - 100)) ∧
    (0 ≤ (clampPos 3 3 ⟨100, 100, 50, 50⟩).y ∧
      (clampPos 3 3 ⟨100, 100, 50, 50⟩).y ≤ max 0 ((50 : Int) - 100)) ∧
    (clampPos 3 3 ⟨100, 100, 50, 50⟩).x = 0 ∧
    (clampPos 3 3 ⟨100, 100, 50, 50⟩).y = 0 := by
  have h := clamp_bounds 3 3 ⟨100, 100, 50, 50⟩
  exact ⟨h.1, h.2.1, h.2.2.1 (by decide), h.2.2.2 (by decide)⟩

/-- C4 counterexample: a well-formed JSON payload that fails structural
validation (here the string `"oops"`, not an `{x, y}` object) is adopted by
the load effect, so the position does not remain the sentinel `(0,0)`. -/
theorem load_adopts_invalid_payload_cex :
    loadEffect (.value (.jstr "oops")) (posJson ⟨0, 0⟩) = .jstr "oops" ∧
    JVal.jstr "oops" ≠ posJson ⟨0, 0⟩ ∧
    decodePos (.jstr "oops") = none := by
  refine ⟨rfl, ?_, rfl⟩
  simp [posJson]

/-- C4 amended: an absent key and malformed JSON are both handled without
raising and leave the position unchanged (the sentinel at initialization),
but any successfully parsed payload is adopted unconditionally — the code
performs no structural validation. -/
theorem load_effect_behavior (position : JVal) (v : JVal) :
    loadEffect .absent position = position ∧
    loadEffect .malformed position = position ∧
    loadEffect (.value v) position = v :=
  ⟨rfl, rfl, rfl⟩

/-- C7: `save p` followed by `load` yields (the JSON form of) a position
equal to `p`, and `load` on a never-written store yields absent. -/
theorem save_load_round_trip (item : StoredItem) (p : Pos) :
    (load (save item p)).bind decodePos = some p ∧
    load .absent = none := by
  constructor
  · simp [save, load, parseStored, posJson, decodePos, Option.bind]
  · rfl

/-- C8 counterexample: with `isDragging` set and a failing storage write,
`handleMouseUp` lets the exception escape (there is no try/catch around
`setItem`), contradicting "the save never raises to its caller". -/
theorem save_failure_raises_cex :
    handleMouseUpFallible true ⟨3, 4⟩ false = (false, [], true) ∧
    (handleMouseUpFallible true ⟨3, 4⟩ false).2.2 ≠ false := by
  exact ⟨rfl, by decide⟩

/-- C8 amended: a failing storage write makes the exception propagate out of
the mouse-up handler, uncaught and unlogged by the component; the drag still
ends (`setIsDragging(false)` precedes `setItem`) and no write occurs, so the
interaction itself continues and the user-visible fallback is the in-memory
(default-anchored) position. -/
theorem save_failure_propagates (p : Pos) :
    handleMouseUpFallible true p true = (false, [p], false) ∧
    handleMouseUpFallible true p false = (false, [], true) ∧
    (∀ ok : Bool, handleMouseUpFallible false p ok = (false, [], false)) := by
  refine ⟨rfl, rfl, ?_⟩
  intro ok; cases ok <;> rfl

/-- C10: the default-corner sentinel is applied per axis: the rendered style
uses the bottom anchor exactly when `y = 0` and the right anchor exactly
when `x = 0`, independently, and on each zero axis the literal coordinate is
not used (`top`/`left` become `auto`). -/
theorem button_style_per_axis_anchor (p : Pos) (d : Bool) :
    ((buttonStyle p d).bottom = .rem15 ↔ p.y = 0) ∧
    ((buttonStyle p d).top = .auto ↔ p.y = 0) ∧
    ((buttonStyle p d).right = .rem15 ↔ p.x = 0) ∧
    ((buttonStyle p d).left = .auto ↔ p.x = 0) := by
  refine ⟨?_, ?_, ?_, ?_⟩ <;>
    by_cases h : p.y = 0 <;> by_cases h' : p.x = 0 <;>
      simp [buttonStyle, h, h']

/- Helper lemmas about the effect and the drag loop. -/

lemma applyEffect_of_inv (s : CState) (h : ListenerInv s) :
    applyEffect s = s := by
  obtain ⟨h1, h2⟩ := h
  simp [applyEffect, h2]

lemma applyEffect_establishes (s : CState)
    (h : (s.isDragging, s.initialPosVer) ≠ s.lastDeps) :
    ListenerInv (applyEffect s) := by
  rw [applyEffect, if_neg h]
  refine ⟨?_, rfl⟩
  cases hd : s.isDragging <;> simp [hd]

lemma applyEffect_position (s : CState) :
    (applyEffect s).position = s.position := by
  rw [applyEffect]; split <;> rfl

/-- During an active drag (listeners registered, dependencies stable), the
pointer-moves produce no output, the closing mouse-up produces exactly one
write, of the captured (drag-start) position, and the synthesized click that
follows navigates exactly once — the mouse-up flush has already cleared
`isDragging`, so `handleClick` no longer sees the drag. -/
lemma run_drag_loop (moves : List (Int × Int × MoveEnv)) :
    ∀ (s : CState) (c : Caps), s.listeners = some c → s.isDragging = true →
      s.lastDeps = (true, s.initialPosVer) →
      (run s (moves.map (fun m => Event.mouseMove m.1 m.2.1 m.2.2)
        ++ [Event.mouseUp, Event.click])).2 = ([c.positionCap], 1) := by
  induction moves with
  | nil =>
      intro s c h1 _ h3
      simp [run, step, h1, handleMouseUp, applyEffect, handleClick, h3]
  | cons m ms ih =>
      intro s c h1 h2 h3
      have hs1 : applyEffect (handleMouseMove c m.1 m.2.1 m.2.2 s)
          = handleMouseMove c m.1 m.2.1 m.2.2 s := by
        simp [applyEffect, handleMouseMove, h2, h3]
      have hrest := ih (handleMouseMove c m.1 m.2.1 m.2.2 s) c
        (by simp [handleMouseMove, h1])
        (by simp [handleMouseMove, h2])
        (by simp [handleMouseMove, h3])
      simp [run, step, h1, hs1, hrest]

/-- C1 counterexample: from the sentinel position, drag from (100,100) to
(300,300) in a 800 × 600 viewport with a 40 × 40 control, releasing over the
control so the browser synthesizes a click.  The displayed position ends at
the clamped final (200,200), but the single persistence write stores (0,0) —
the drag-start position captured by the mouse-up closure — not the clamped
final position, and one navigation invocation occurs, not zero: the click
fires after the mouse-up flush cleared `isDragging`, so `handleClick`
navigates. -/
theorem drag_write_not_final_position_cex :
    (run (initState ⟨0, 0⟩)
      (dragTrace 100 100 [(300, 300, ⟨40, 40, 800, 600⟩)])).2.1
        = [(⟨0, 0⟩ : Pos)] ∧
    (run (initState ⟨0, 0⟩)
      (dragTrace 100 100 [(300, 300, ⟨40, 40, 800, 600⟩)])).1.position
        = ⟨200, 200⟩ ∧
    (run (initState ⟨0, 0⟩)
      (dragTrace 100 100 [(300, 300, ⟨40, 40, 800, 600⟩)])).2.2 = 1 ∧
    [(⟨0, 0⟩ : Pos)] ≠ [(⟨200, 200⟩ : Pos)] ∧ (1 : Nat) ≠ 0 := by
  decide

/-- C1 amended: every ordinary drag session (pointer-down, any
pointer-moves, pointer-up over the control, and the click the browser then
synthesizes) performs exactly one persistence write, but its value is the
position the control had at drag start — the mouse-up listener registered at
drag start captures the pre-drag `position` and is never re-registered
during the drag — and exactly one navigation invocation, not zero: by the
time the synthesized click is dispatched, the mouse-up has already cleared
`isDragging`, so `handleClick` navigates. -/
theorem drag_session_single_write (s0 : CState) (x y : Int)
    (moves : List (Int × Int × MoveEnv))
    (h1 : s0.isDragging = false)
    (h2 : s0.lastDeps = (s0.isDragging, s0.initialPosVer)) :
    (run s0 (dragTrace x y moves)).2 = ([s0.position], 1) := by
  have hmain := run_drag_loop moves (step s0 (Event.mouseDown 0 x y)).1
    ⟨⟨x - s0.position.x, y - s0.position.y⟩, s0.position⟩
    (by simp [step, handleMouseDown, applyEffect, h1, h2])
    (by simp [step, handleMouseDown, applyEffect, h1, h2])
    (by simp [step, handleMouseDown, applyEffect, h1, h2])
  simp only [dragTrace, run, hmain]
  simp [step]

/-- Witness for `drag_session_single_write` at a concrete drag. -/
theorem drag_session_single_write_witness :
    (run (initState ⟨8, 9⟩)
      (dragTrace 20 20 [(120, 40, ⟨40, 40, 800, 600⟩)])).2
        = ([(⟨8, 9⟩ : Pos)], 1) :=
  drag_session_single_write (initState ⟨8, 9⟩) 20 20
    [(120, 40, ⟨40, 40, 800, 600⟩)] (by decide) (by decide)

/-- C2 counterexample: pointer-down then pointer-up with zero displacement,
followed by the click the browser synthesizes.  One navigation occurs, but
there is also one persistence write (`handleMouseUp` persists on every
mouse-up of a primary-button press, with no displacement check), not zero. -/
theorem click_gesture_writes_cex :
    (run (initState ⟨5, 7⟩)
      [.mouseDown 0 50 50, .mouseUp, .click]).2 = ([(⟨5, 7⟩ : Pos)], 1) ∧
    [(⟨5, 7⟩ : Pos)] ≠ [] := by
  decide

/-- C2 amended: a pointer-down/pointer-up gesture with zero displacement
(followed by the browser's synthesized click) performs exactly one
navigation invocation and exactly one persistence write, re-saving the
unchanged position — the code persists on every primary-button release, with
no displacement check. -/
theorem click_gesture_one_nav_one_write (s0 : CState) (x y : Int)
    (h1 : s0.isDragging = false)
    (h2 : s0.lastDeps = (s0.isDragging, s0.initialPosVer)) :
    (run s0 [.mouseDown 0 x y, .mouseUp, .click]).2 = ([s0.position], 1) := by
  simp [run, step, handleMouseDown, applyEffect, handleMouseUp, handleClick,
    h1, h2]

/-- Witness for `click_gesture_one_nav_one_write` at a concrete input. -/
theorem click_gesture_one_nav_one_write_witness :
    (run (initState ⟨9, 2⟩)
      [.mouseDown 0 50 50, .mouseUp, .click]).2 = ([(⟨9, 2⟩ : Pos)], 1) :=
  click_gesture_one_nav_one_write (initState ⟨9, 2⟩) 50 50
    (by decide) (by decide)

/-- C5: the listener bookkeeping holds at mount and is preserved by every
event; whenever no drag is active no listener is registered and a
pointer-move leaves the state (in particular the position) unchanged; and
teardown removes the listeners unconditionally, also mid-drag. -/
theorem listener_hygiene :
    (∀ p0 : Pos, ListenerInv (initState p0)) ∧
    (∀ (s : CState) (e : Event), ListenerInv s → ListenerInv (step s e).1) ∧
    (∀ s : CState, ListenerInv s → s.isDragging = false →
      s.listeners = none ∧
      ∀ (x y : Int) (env : MoveEnv), (step s (.mouseMove x y env)).1 = s) ∧
    (∀ s : CState, (unmount s).listeners = none) := by
  refine ⟨fun p0 => ⟨rfl, rfl⟩, ?_, ?_, fun s => rfl⟩
  · intro s e hInv
    obtain ⟨hi1, hi2⟩ := hInv
    cases e with
    | mouseDown b x y =>
        by_cases hb : b ≠ 0
        · rw [step, if_pos hb]
          simpa [applyEffect_of_inv s ⟨hi1, hi2⟩] using ⟨hi1, hi2⟩
        · rw [step, if_neg hb]
          refine applyEffect_establishes _ ?_
          simp [handleMouseDown, hb, hi2]
    | mouseMove x y env =>
        cases hl : s.listeners with
        | none =>
            simpa [step, hl, applyEffect_of_inv s ⟨hi1, hi2⟩] using ⟨hi1, hi2⟩
        | some c =>
            have hd : s.isDragging = true := by rw [← hi1, hl]; rfl
            have hmm : applyEffect (handleMouseMove c x y env s)
                = handleMouseMove c x y env s := by
              simp [applyEffect, handleMouseMove, hi2]
            simp only [step, hl, hmm]
            exact ⟨by simpa [handleMouseMove, hl] using hi1,
                   by simpa [handleMouseMove] using hi2⟩
    | mouseUp =>
        cases hl : s.listeners with
        | none =>
            simpa [step, hl, applyEffect_of_inv s ⟨hi1, hi2⟩] using ⟨hi1, hi2⟩
        | some c =>
            have hd : s.isDragging = true := by rw [← hi1, hl]; rfl
            simp only [step, hl, handleMouseUp, if_pos]
            refine applyEffect_establishes _ ?_
            simp [hi2, hd]
    | click =>
        simpa [step, applyEffect_of_inv s ⟨hi1, hi2⟩] using ⟨hi1, hi2⟩
    | keyDown k =>
        by_cases hk : k = "Enter" ∨ k = " " <;>
          simpa [step, hk, applyEffect_of_inv s ⟨hi1, hi2⟩] using ⟨hi1, hi2⟩
  · intro s hInv hd
    obtain ⟨hi1, hi2⟩ := hInv
    have hnone : s.listeners = none := by
      cases hl : s.listeners with
      | none => rfl
      | some c => rw [hl] at hi1; rw [hd] at hi1; exact absurd hi1 (by simp)
    refine ⟨hnone, fun x y env => ?_⟩
    simp [step, hnone, applyEffect_of_inv s ⟨hi1, hi2⟩]

/-- Witness for `listener_hygiene`: preservation applied at a concrete state
and event. -/
theorem listener_hygiene_witness :
    ListenerInv ((step (initState ⟨0, 0⟩) (.mouseDown 0 3 4)).1) :=
  listener_hygiene.2.1 (initState ⟨0, 0⟩) (.mouseDown 0 3 4) (by decide)

/-- C6 counterexample: with a drag active (reachable by a primary-button
mouse-down), pressing Enter on the focused control performs zero navigation
invocations, not exactly one — `handleClick` is guarded by `!isDragging`. -/
theorem keydown_during_drag_no_nav_cex :
    ((step (step (initState ⟨0, 0⟩) (.mouseDown 0 3 4)).1
      (.keyDown "Enter")).2).navs = 0 ∧
    ((step (step (initState ⟨0, 0⟩) (.mouseDown 0 3 4)).1
      (.keyDown "Enter")).2).navs ≠ 1 := by
  decide

/-- C6 amended: a keyboard activation (Enter or Space) never writes to the
position store and always suppresses the key's default behavior; it performs
exactly one navigation invocation when no drag is currently active, and zero
when pressed during an active drag. -/
theorem keyboard_activation (s : CState) (k : String)
    (h : k = "Enter" ∨ k = " ") :
    (step s (.keyDown k)).2.saves = [] ∧
    (step s (.keyDown k)).2.prevented = true ∧
    (step s (.keyDown k)).2.navs = (if s.isDragging then 0 else 1) := by
  rcases h with h | h <;> subst h <;> simp [step, handleClick]

/-- Witness for `keyboard_activation` at a concrete input. -/
theorem keyboard_activation_witness :
    (step (initState ⟨0, 0⟩) (.keyDown "Enter")).2.saves = [] ∧
    (step (initState ⟨0, 0⟩) (.keyDown "Enter")).2.prevented = true ∧
    (step (initState ⟨0, 0⟩) (.keyDown "Enter")).2.navs
      = (if (initState ⟨0, 0⟩).isDragging then 0 else 1) :=
  keyboard_activation (initState ⟨0, 0⟩) "Enter" (Or.inl rfl)

/-- C9 counterexample: with a 100 × 100 control in a 50 × 50 viewport, a
drag move clamps the position to (0,0); the state is `Dragging` but the
position violates the claimed bound `x ≤ viewportWidth - controlWidth`
(= -50) — the claimed interval omits the `max 0` the code applies. -/
theorem dragging_position_bounds_cex :
    (run (initState ⟨0, 0⟩)
      [.mouseDown 0 0 0, .mouseMove 3 3 ⟨100, 100, 50, 50⟩]).1.isDragging
        = true ∧
    (run (initState ⟨0, 0⟩)
      [.mouseDown 0 0 0, .mouseMove 3 3 ⟨100, 100, 50, 50⟩]).1.position
        = ⟨0, 0⟩ ∧
    ¬ ((run (initState ⟨0, 0⟩)
      [.mouseDown 0 0 0, .mouseMove 3 3 ⟨100, 100, 50, 50⟩]).1.position.x
        ≤ (50 : Int) - 100) := by
  decide

/-- C9 amended: every position update performed by a pointer-move during a
drag (listeners registered) yields a position within
`[0, max 0 (viewportW - controlW)] × [0, max 0 (viewportH - controlH)]` for
the sizes measured at that move, so drag updates preserve the (corrected)
bounds. -/
theorem drag_move_position_bounded (s : CState) (c : Caps) (x y : Int)
    (env : MoveEnv) (h : s.listeners = some c) :
    0 ≤ (step s (.mouseMove x y env)).1.position.x ∧
    (step s (.mouseMove x y env)).1.position.x
      ≤ max 0 ((env.viewportW : Int) - env.buttonW) ∧
    0 ≤ (step s (.mouseMove x y env)).1.position.y ∧
    (step s (.mouseMove x y env)).1.position.y
      ≤ max 0 ((env.viewportH : Int) - env.buttonH) := by
  have hpos : (step s (.mouseMove x y env)).1.position
      = clampPos (x - c.initialPosCap.x) (y - c.initialPosCap.y) env := by
    simp [step, h, applyEffect_position, handleMouseMove]
  rw [hpos]
  exact ⟨clampAxis_nonneg _ _ _, clampAxis_le _ _ _,
         clampAxis_nonneg _ _ _, clampAxis_le _ _ _⟩

/-- Witness for `drag_move_position_bounded` at a concrete drag state. -/
theorem drag_move_position_bounded_witness :
    0 ≤ (step (step (initState ⟨0, 0⟩) (.mouseDown 0 0 0)).1
      (.mouseMove 3 3 ⟨100, 100, 50, 50⟩)).1.position.x ∧
    (step (step (initState ⟨0, 0⟩) (.mouseDown 0 0 0)).1
      (.mouseMove 3 3 ⟨100, 100, 50, 50⟩)).1.position.x
        ≤ max 0 ((50 : Int) - 100) ∧
    0 ≤ (step (step (initState ⟨0, 0⟩) (.mouseDown 0 0 0)).1
      (.mouseMove 3 3 ⟨100, 100, 50, 50⟩)).1.position.y ∧
    (step (step (initState ⟨0, 0⟩) (.mouseDown 0 0 0)).1
      (.mouseMove 3 3 ⟨100, 100, 50, 50⟩)).1.position.y
        ≤ max 0 ((50 : Int) - 100) :=
  drag_move_position_bounded (step (initState ⟨0, 0⟩) (.mouseDown 0 0 0)).1
    ⟨⟨0, 0⟩, ⟨0, 0⟩⟩ 3 3 ⟨100, 100, 50, 50⟩ (by decide)

end FloatingTerminal
